import Mathlib

/-!
Shallow embedding of the chat application in `src/app.py`.

The application keeps an ordered conversation log in session state, builds a
bounded textual context window from the last 10 log entries, sends one prompt
per user turn to a remote completion service, and appends both the user turn
and the (real or synthetic-error) assistant turn to the log.

External effects are modelled as explicit function parameters:
  * the remote completion call `chat.send_message` becomes
    `send : String → Except String String` (`Except.error e` models a raised
    exception whose `str(e)` is `e`);
  * the client construction `genai.configure` plus `genai.GenerativeModel`
    becomes `mkModel : String → Except String String` (an `Except.ok h`
    result is the opaque client handle, modelled as a string so distinct
    credentials can yield distinguishable handles);
  * `datetime.now().isoformat()` becomes explicit timestamp arguments;
  * Streamlit status widgets (`st.error`, `st.success`, `st.info`) become an
    emitted list of `StatusMsg` values.
-/

/-- One turn of the conversation, mirroring the dict
`{"role": ..., "content": ..., "timestamp": ...}` appended in `main`
(src/app.py lines 244-248 and 260-264). -/
structure Message where
  role : String
  content : String
  timestamp : String
deriving Repr, DecidableEq

/-- The per-session state initialised at src/app.py lines 67-73:
`st.session_state.messages = []`, `st.session_state.api_key = ""`,
`st.session_state.model = None`. -/
structure SessionState where
  messages : List Message
  api_key : String
  model : Option String
deriving Repr, DecidableEq

/-- A visible status widget emitted during a rerun: `st.error`, `st.success`
or `st.info`. -/
inductive StatusMsg where
  | errorMsg : String → StatusMsg
  | successMsg : String → StatusMsg
  | infoMsg : String → StatusMsg
deriving Repr, DecidableEq

/-- src/app.py line 93:
`recent_history = chat_history[-10:] if len(chat_history) > 10 else chat_history`. -/
def recent_history (chat_history : List Message) : List Message :=
  if chat_history.length > 10 then chat_history.drop (chat_history.length - 10)
  else chat_history

/-- The string appended per message by the loop at src/app.py lines 95-96:
`context += f"{msg['role']}: {msg['content']}\n"`. -/
def renderMsg (msg : Message) : String :=
  msg.role ++ ": " ++ msg.content ++ "\n"

/-- The accumulation loop at src/app.py lines 94-96: `context = ""` followed by
`context += renderMsg(msg)` over `recent_history`. -/
def buildContext (recent : List Message) : String :=
  recent.foldl (fun acc msg => acc ++ renderMsg msg) ""

/-- src/app.py line 99:
`full_prompt = f"{context}\nuser: {prompt}" if context else prompt`,
where `context` is built over the windowed history. Python string truthiness
is non-emptiness. -/
def full_prompt (prompt : String) (chat_history : List Message) : String :=
  let context := buildContext (recent_history chat_history)
  if context ≠ "" then context ++ "\nuser: " ++ prompt else prompt

/-- src/app.py lines 86-103, `get_gemini_response`: send `full_prompt` on a
fresh sessionless chat; on success return `response.text` as-is; on any
exception return the synthetic string
`f"Error getting response: {str(e)}"` instead of raising. -/
def get_gemini_response (send : String → Except String String) (prompt : String)
    (chat_history : List Message) : String :=
  match send (full_prompt prompt chat_history) with
  | Except.ok t => t
  | Except.error e => "Error getting response: " ++ e

/-- src/app.py lines 75-84, `configure_gemini`: attempt to build a client
handle from the credential; on success return it, on any exception emit
`st.error(f"Error configuring Gemini API: {str(e)}")` and return `None`. -/
def configure_gemini (mkModel : String → Except String String) (api_key : String) :
    Option String × List StatusMsg :=
  match mkModel api_key with
  | Except.ok m => (some m, [])
  | Except.error e =>
      (none, [StatusMsg.errorMsg ("Error configuring Gemini API: " ++ e)])

/-- src/app.py lines 121-136, the sidebar branch taken when no environment
credential is present: show an info message, and if the text input is
non-empty, store it as `api_key` and overwrite `st.session_state.model` with
the result of `configure_gemini` (which is `None` on failure), then show a
success or error message. -/
def interactiveConfigure (mkModel : String → Except String String)
    (api_key_input : String) (s : SessionState) : SessionState × List StatusMsg :=
  if api_key_input ≠ "" then
    let r := configure_gemini mkModel api_key_input
    ({ s with api_key := api_key_input, model := r.1 },
      StatusMsg.infoMsg "💡 API key not found in environment variables" ::
        (r.2 ++ [if r.1 ≠ none then
            StatusMsg.successMsg "✅ API Key configured successfully!"
          else StatusMsg.errorMsg "❌ Failed to configure API Key"]))
  else (s, [StatusMsg.infoMsg "💡 API key not found in environment variables"])

/-- src/app.py lines 113-136, the sidebar configuration step of `main`:
`env_api_key = os.getenv("GEMINI_API_KEY")`; if it is truthy (present and
non-empty) store it as `api_key` and configure from it only when no model is
stored yet; otherwise fall back to the interactive credential input. -/
def sidebarConfigure (mkModel : String → Except String String)
    (env_api_key : Option String) (api_key_input : String) (s : SessionState) :
    SessionState × List StatusMsg :=
  match env_api_key with
  | some k =>
      if k ≠ "" then
        if s.model = none then
          let r := configure_gemini mkModel k
          ({ s with api_key := k, model := r.1 },
            StatusMsg.successMsg "✅ API Key loaded from environment variable" :: r.2)
        else
          ({ s with api_key := k },
            [StatusMsg.successMsg "✅ API Key loaded from environment variable"])
      else interactiveConfigure mkModel api_key_input s
  | none => interactiveConfigure mkModel api_key_input s

/-- src/app.py lines 169-191: the chat interface is reachable only past the
two early returns `if not st.session_state.api_key: ... return` and
`if not st.session_state.model: ... return`. -/
def chatEnabled (s : SessionState) : Bool :=
  if s.api_key = "" then false
  else if s.model = none then false
  else true

/-- Semantics of Python `str.strip()`: remove leading and trailing
whitespace characters. -/
def pyStrip (s : String) : String :=
  ⟨((s.data.dropWhile Char.isWhitespace).reverse.dropWhile Char.isWhitespace).reverse⟩

/-- src/app.py lines 242-264, the turn handler of `main`: when the send
button is pressed and `user_input.strip()` is truthy, append the user
message, call `get_gemini_response` on `st.session_state.messages[:-1]`
(the log excluding the just-appended message), and append the assistant
message; otherwise do nothing. -/
def processTurn (send : String → Except String String) (send_button : Bool)
    (user_input : String) (ts_user ts_assistant : String)
    (messages : List Message) : List Message :=
  if send_button = true ∧ pyStrip user_input ≠ "" then
    let messages1 := messages ++
      [{ role := "user", content := user_input, timestamp := ts_user }]
    let response := get_gemini_response send user_input messages1.dropLast
    messages1 ++
      [{ role := "assistant", content := response, timestamp := ts_assistant }]
  else messages

/-- src/app.py lines 143-145: the clear button sets
`st.session_state.messages = []`. -/
def clearChat (s : SessionState) : SessionState :=
  { s with messages := [] }

/-- Modelled from the spec's words, for comparison with the code: join a list
of lines with single newlines ("joined by newlines"). -/
def joinLines : List String → String
  | [] => ""
  | [s] => s
  | s :: rest => s ++ "\n" ++ joinLines rest

/-- Modelled from the spec's words, for comparison with the code: the
rendered context, each entry rendered as `"<role>: <content>"`, joined by
newlines. -/
def specRenderedContext (h : List Message) : String :=
  joinLines (h.map (fun m => m.role ++ ": " ++ m.content))

/-- Modelled from the spec's words, for comparison with the code: the
outgoing request text claimed for non-empty history — the rendered context,
then `"\n\n"`, then the role-less new utterance. -/
def specClaimPrompt (U : String) (H : List Message) : String :=
  specRenderedContext (recent_history H) ++ "\n\n" ++ U

/-- The semantics of the unconditional Python slice `chat_history[-10:]`:
the negative start index clamps to 0 when the list is shorter than 10, so it
is `drop (length - 10)` with truncated natural subtraction. -/
def pySliceLastTen (l : List Message) : List Message :=
  l.drop (l.length - 10)

/-- Whether the Python truthiness test `if env_api_key:` at src/app.py line
116 succeeds: the environment variable is present and non-empty. -/
def envTruthy : Option String → Bool
  | some k => k != ""
  | none => false

/-- Whether the sidebar step actually attempts to construct a handle: in the
environment branch only when no model is stored yet (src/app.py line 119),
in the interactive branch only when the text input is non-empty (src/app.py
line 130). -/
def configAttempted (env_api_key : Option String) (api_key_input : String)
    (s : SessionState) : Prop :=
  (envTruthy env_api_key = true ∧ s.model = none) ∨
  (envTruthy env_api_key = false ∧ api_key_input ≠ "")

/-! ### Helper lemmas -/

lemma buildContext_foldl_acc (l : List Message) (acc : String) :
    l.foldl (fun acc msg => acc ++ renderMsg msg) acc = acc ++ buildContext l := by
  induction l generalizing acc with
  | nil => simp [buildContext]
  | cons m t ih =>
      simp only [List.foldl_cons, buildContext]
      rw [ih, ih (("" : String) ++ renderMsg m)]
      rw [String.empty_append, String.append_assoc]

lemma buildContext_cons (m : Message) (t : List Message) :
    buildContext (m :: t) = renderMsg m ++ buildContext t := by
  show List.foldl _ _ (m :: t) = _
  rw [List.foldl_cons, buildContext_foldl_acc, String.empty_append]

lemma joinLines_cons₂ (a b : String) (l : List String) :
    joinLines (a :: b :: l) = a ++ "\n" ++ joinLines (b :: l) := rfl

lemma buildContext_eq_spec (l : List Message) (h : l ≠ []) :
    buildContext l =
      joinLines (l.map (fun m => m.role ++ ": " ++ m.content)) ++ "\n" := by
  induction l with
  | nil => exact absurd rfl h
  | cons m t ih =>
      cases t with
      | nil =>
          simp [buildContext_cons, buildContext, renderMsg, joinLines,
            String.append_assoc]
      | cons m2 t2 =>
          rw [buildContext_cons, ih (by simp)]
          show _ = joinLines ((m.role ++ ": " ++ m.content) :: _ :: _) ++ "\n"
          rw [joinLines_cons₂, renderMsg]
          simp [String.append_assoc]

lemma buildContext_ne_empty (l : List Message) (h : l ≠ []) :
    buildContext l ≠ "" := by
  rw [buildContext_eq_spec l h]
  intro hcontra
  have hlen := congrArg String.length hcontra
  rw [String.length_append] at hlen
  have h1 : ("\n" : String).length = 1 := rfl
  have h0 : ("" : String).length = 0 := rfl
  omega

lemma recent_history_ne_nil (H : List Message) (h : H ≠ []) :
    recent_history H ≠ [] := by
  unfold recent_history
  split
  · rename_i hlen
    intro hcontra
    have := congrArg List.length hcontra
    simp [List.length_drop] at this
    omega
  · exact h

lemma processTurn_pos (send : String → Except String String) (input ts1 ts2 : String)
    (msgs : List Message) (h : pyStrip input ≠ "") :
    processTurn send true input ts1 ts2 msgs =
      msgs ++ [{ role := "user", content := input, timestamp := ts1 },
        { role := "assistant", content := get_gemini_response send input msgs,
          timestamp := ts2 }] := by
  have he : processTurn send true input ts1 ts2 msgs =
      (msgs ++ [{ role := "user", content := input, timestamp := ts1 }]) ++
        [{ role := "assistant",
           content := get_gemini_response send input
             ((msgs ++ [({ role := "user", content := input, timestamp := ts1 } : Message)]).dropLast),
           timestamp := ts2 }] := by
    unfold processTurn
    rw [if_pos ⟨rfl, h⟩]
  rw [List.dropLast_concat] at he
  rw [he, List.append_assoc]
  rfl

/-! ### Claim theorems -/

/-- C4 (confirmed): for every history `H`, the context window built by
`get_gemini_response` contains exactly the last `min 10 H.length` entries of
`H` (all of `H` when `H.length ≤ 10`), in original chronological order,
oldest first. -/
theorem c4_window_last_ten (H : List Message) :
    recent_history H = H.drop (H.length - min 10 H.length) ∧
    (recent_history H).length = min 10 H.length := by
  unfold recent_history
  by_cases hlen : H.length > 10
  · rw [if_pos hlen]
    have hmin : min 10 H.length = 10 := by omega
    rw [hmin]
    refine ⟨rfl, ?_⟩
    rw [List.length_drop]
    omega
  · rw [if_neg hlen]
    have hmin : min 10 H.length = H.length := by omega
    rw [hmin]
    simp

/-- C6 (confirmed): with an empty history, the outgoing prompt passed to the
remote call is the new utterance verbatim — no separators, no role prefix,
no empty context block. -/
theorem c6_empty_history_verbatim (U : String) : full_prompt U [] = U := rfl

/-- C9 (confirmed): clearing the chat always yields the empty log, and
clearing is idempotent. -/
theorem c9_clear_idempotent (s : SessionState) :
    (clearChat s).messages = [] ∧ clearChat (clearChat s) = clearChat s :=
  ⟨rfl, rfl⟩

/-- C10 (confirmed): the guarded window expression of src/app.py line 93 is
extensionally equal to the unconditional Python slice `chat_history[-10:]`,
and at the boundary length of exactly 10 the whole history is included. -/
theorem c10_slice_equivalence (H : List Message) :
    recent_history H = pySliceLastTen H ∧
    (H.length = 10 → recent_history H = H) := by
  constructor
  · unfold recent_history pySliceLastTen
    by_cases hlen : H.length > 10
    · rw [if_pos hlen]
    · rw [if_neg hlen]
      have h0 : H.length - 10 = 0 := by omega
      rw [h0, List.drop_zero]
  · intro h10
    unfold recent_history
    rw [if_neg (by omega)]

/-- Witness for C10 at a concrete history of length exactly 10. -/
theorem c10_slice_equivalence_witness :
    recent_history (List.replicate 10 { role := "user", content := "x", timestamp := "t" }) =
      pySliceLastTen (List.replicate 10 { role := "user", content := "x", timestamp := "t" }) ∧
    ((List.replicate 10 ({ role := "user", content := "x", timestamp := "t" } : Message)).length = 10 →
      recent_history (List.replicate 10 { role := "user", content := "x", timestamp := "t" }) =
        List.replicate 10 { role := "user", content := "x", timestamp := "t" }) :=
  c10_slice_equivalence (List.replicate 10 { role := "user", content := "x", timestamp := "t" })

/-- C1 counterexample: with history `[{user, "a"}]` and new utterance `"b"`,
the code produces `"user: a\n\nuser: b"` (src/app.py line 99 prefixes the new
utterance with `"user: "`), not the claimed `"user: a\n\nb"` with a role-less
new utterance. -/
theorem c1_counterexample :
    full_prompt "b" [{ role := "user", content := "a", timestamp := "t0" }] ≠
      specClaimPrompt "b" [{ role := "user", content := "a", timestamp := "t0" }] := by
  decide

/-- C1 (corrected): for every non-empty history `H` and new utterance `U`,
the outgoing request text equals the rendered context (each windowed entry
rendered as `"<role>: <content>"` joined by newlines), followed by `"\n\n"`,
followed by the new utterance prefixed with `"user: "` — not the role-less
new utterance. -/
theorem c1_amended_prompt_assembly (H : List Message) (U : String) (h : H ≠ []) :
    full_prompt U H =
      specRenderedContext (recent_history H) ++ "\n\n" ++ ("user: " ++ U) := by
  have hnil := recent_history_ne_nil H h
  have hne := buildContext_ne_empty (recent_history H) hnil
  show (if buildContext (recent_history H) ≠ "" then
      buildContext (recent_history H) ++ "\nuser: " ++ U else U) = _
  rw [if_pos hne, buildContext_eq_spec _ hnil]
  unfold specRenderedContext
  simp only [String.append_assoc]
  congr 1

/-- Witness for the amended C1 at a concrete one-entry history. -/
theorem c1_amended_prompt_assembly_witness :
    full_prompt "b" [{ role := "user", content := "a", timestamp := "t0" }] =
      specRenderedContext (recent_history
        [{ role := "user", content := "a", timestamp := "t0" }]) ++ "\n\n" ++
        ("user: " ++ "b") :=
  c1_amended_prompt_assembly
    [{ role := "user", content := "a", timestamp := "t0" }] "b" (by decide)

/-- C5 (confirmed): for every log, non-blank utterance and completion
function (successful or failing), processing one user turn appends exactly a
user entry and then an assistant entry, so the log grows by exactly two. -/
theorem c5_turn_appends_two (send : String → Except String String)
    (msgs : List Message) (input ts1 ts2 : String) (h : pyStrip input ≠ "") :
    processTurn send true input ts1 ts2 msgs =
      msgs ++ [{ role := "user", content := input, timestamp := ts1 },
        { role := "assistant", content := get_gemini_response send input msgs,
          timestamp := ts2 }] ∧
    (processTurn send true input ts1 ts2 msgs).length = msgs.length + 2 := by
  have he := processTurn_pos send input ts1 ts2 msgs h
  refine ⟨he, ?_⟩
  rw [he, List.length_append]
  rfl

/-- Witness for C5 at a concrete empty log and utterance "Hello". -/
theorem c5_turn_appends_two_witness :
    processTurn (fun _ => Except.ok "Hi there") true "Hello" "t1" "t2" [] =
      [] ++ [{ role := "user", content := "Hello", timestamp := "t1" },
        { role := "assistant",
          content := get_gemini_response (fun _ => Except.ok "Hi there") "Hello" [],
          timestamp := "t2" }] ∧
    (processTurn (fun _ => Except.ok "Hi there") true "Hello" "t1" "t2" []).length =
      List.length ([] : List Message) + 2 :=
  c5_turn_appends_two (fun _ => Except.ok "Hi there") [] "Hello" "t1" "t2" (by decide)

/-- C7 (confirmed): submitting an empty or whitespace-only input is a no-op:
the log is returned unchanged, for every completion function (so no
completion call can influence the result). -/
theorem c7_blank_input_noop (send : String → Except String String) (btn : Bool)
    (msgs : List Message) (input ts1 ts2 : String) (h : pyStrip input = "") :
    processTurn send btn input ts1 ts2 msgs = msgs := by
  unfold processTurn
  rw [if_neg]
  intro hc
  exact hc.2 h

/-- Witness for C7 at whitespace-only input "   " over a one-entry log. -/
theorem c7_blank_input_noop_witness :
    processTurn (fun _ => Except.ok "r") true "   " "t1" "t2"
        [{ role := "user", content := "x", timestamp := "t" }] =
      [{ role := "user", content := "x", timestamp := "t" }] :=
  c7_blank_input_noop (fun _ => Except.ok "r") true
    [{ role := "user", content := "x", timestamp := "t" }] "   " "t1" "t2" (by decide)

/-- C3 (confirmed): whenever the remote call raises, `get_gemini_response`
returns (it is a total function, so no exception escapes) the non-empty
synthetic string `"Error getting response: " ++ e`, and the turn handler
appends exactly that string to the log as an assistant turn. -/
theorem c3_completion_failure_synthetic (send : String → Except String String)
    (msgs : List Message) (prompt ts1 ts2 e : String)
    (hfail : send (full_prompt prompt msgs) = Except.error e)
    (hinput : pyStrip prompt ≠ "") :
    get_gemini_response send prompt msgs = "Error getting response: " ++ e ∧
    get_gemini_response send prompt msgs ≠ "" ∧
    processTurn send true prompt ts1 ts2 msgs =
      msgs ++ [{ role := "user", content := prompt, timestamp := ts1 },
        { role := "assistant", content := "Error getting response: " ++ e,
          timestamp := ts2 }] := by
  have hresp : get_gemini_response send prompt msgs = "Error getting response: " ++ e := by
    unfold get_gemini_response
    rw [hfail]
  refine ⟨hresp, ?_, ?_⟩
  · rw [hresp]
    intro hcontra
    have hlen := congrArg String.length hcontra
    rw [String.length_append] at hlen
    have h1 : ("Error getting response: " : String).length = 24 := rfl
    have h0 : ("" : String).length = 0 := rfl
    omega
  · rw [processTurn_pos send prompt ts1 ts2 msgs hinput, hresp]

/-- Witness for C3 at a concrete always-raising completion function. -/
theorem c3_completion_failure_synthetic_witness :
    get_gemini_response (fun _ => Except.error "boom") "hi" [] =
      "Error getting response: " ++ "boom" ∧
    get_gemini_response (fun _ => Except.error "boom") "hi" [] ≠ "" ∧
    processTurn (fun _ => Except.error "boom") true "hi" "t1" "t2" [] =
      [] ++ [{ role := "user", content := "hi", timestamp := "t1" },
        { role := "assistant", content := "Error getting response: " ++ "boom",
          timestamp := "t2" }] :=
  c3_completion_failure_synthetic (fun _ => Except.error "boom") [] "hi" "t1" "t2"
    "boom" rfl (by decide)

lemma interactiveConfigure_fail (mkModel : String → Except String String)
    (input : String) (s : SessionState) (e : String)
    (hme : mkModel input = Except.error e) (hin : input ≠ "") :
    interactiveConfigure mkModel input s =
      ({ s with api_key := input, model := none },
        [StatusMsg.infoMsg "💡 API key not found in environment variables",
         StatusMsg.errorMsg ("Error configuring Gemini API: " ++ e),
         StatusMsg.errorMsg "❌ Failed to configure API Key"]) := by
  simp [interactiveConfigure, configure_gemini, hme, hin]

lemma sidebarConfigure_not_truthy (mkModel : String → Except String String)
    (env_api_key : Option String) (input : String) (s : SessionState)
    (h : envTruthy env_api_key = false) :
    sidebarConfigure mkModel env_api_key input s =
      interactiveConfigure mkModel input s := by
  cases env_api_key with
  | none => rfl
  | some k =>
      simp only [envTruthy, bne_eq_false_iff_eq] at h
      simp [sidebarConfigure, h]

lemma interactive_fail_conclusion (mkModel : String → Except String String)
    (input : String) (s : SessionState)
    (hfail : ∀ k, ∃ e, mkModel k = Except.error e) :
    ((interactiveConfigure mkModel input s).1.model = none ∨
      (interactiveConfigure mkModel input s).1.model = s.model) ∧
    (input ≠ "" →
      ∃ e, StatusMsg.errorMsg e ∈ (interactiveConfigure mkModel input s).2) := by
  by_cases hin : input = ""
  · refine ⟨Or.inr ?_, fun hne => absurd hin hne⟩
    simp [interactiveConfigure, hin]
  · obtain ⟨e, he⟩ := hfail input
    rw [interactiveConfigure_fail mkModel input s e he hin]
    exact ⟨Or.inl rfl,
      fun _ => ⟨"Error configuring Gemini API: " ++ e, by simp⟩⟩

/-- C2 counterexample: with no environment credential, a previously stored
handle `some "oldHandle"`, and a failing interactive credential `"badkey"`,
the configuration step overwrites the stored handle with `none`
(src/app.py line 132), so the previously stored handle is NOT left
unchanged. -/
theorem c2_counterexample :
    (sidebarConfigure (fun _ => Except.error "invalid key") none "badkey"
        { messages := [], api_key := "k0", model := some "oldHandle" }).1.model ≠
      ({ messages := [], api_key := "k0",
         model := some "oldHandle" } : SessionState).model := by
  decide

/-- C2 (corrected): when every configuration attempt fails, the step never
stores a new handle — afterwards the stored handle is either `none` or the
untouched previous one — and whenever a handle construction is actually
attempted the failure is surfaced as a visible error status message; the
step is a total function, so it does not crash. In the interactive branch,
however, a failing attempt overwrites a previously stored handle with
`none` instead of leaving it usable (see the counterexample); only the
environment branch leaves a previously stored handle untouched, because it
attempts configuration only when no handle exists. -/
theorem c2_amended_config_failure (mkModel : String → Except String String)
    (env_api_key : Option String) (api_key_input : String) (s : SessionState)
    (hfail : ∀ k, ∃ e, mkModel k = Except.error e) :
    ((sidebarConfigure mkModel env_api_key api_key_input s).1.model = none ∨
      (sidebarConfigure mkModel env_api_key api_key_input s).1.model = s.model) ∧
    (configAttempted env_api_key api_key_input s →
      ∃ e, StatusMsg.errorMsg e ∈
        (sidebarConfigure mkModel env_api_key api_key_input s).2) := by
  by_cases htr : envTruthy env_api_key = true
  · cases env_api_key with
    | none => simp [envTruthy] at htr
    | some k =>
        have hk : k ≠ "" := by simpa [envTruthy] using htr
        by_cases hm : s.model = none
        · obtain ⟨e, he⟩ := hfail k
          have hside : sidebarConfigure mkModel (some k) api_key_input s =
              ({ s with api_key := k, model := none },
                [StatusMsg.successMsg "✅ API Key loaded from environment variable",
                 StatusMsg.errorMsg ("Error configuring Gemini API: " ++ e)]) := by
            simp [sidebarConfigure, configure_gemini, hk, hm, he]
          rw [hside]
          exact ⟨Or.inl rfl,
            fun _ => ⟨"Error configuring Gemini API: " ++ e, by simp⟩⟩
        · have hside : sidebarConfigure mkModel (some k) api_key_input s =
              ({ s with api_key := k },
                [StatusMsg.successMsg "✅ API Key loaded from environment variable"]) := by
            simp [sidebarConfigure, hk, hm]
          rw [hside]
          refine ⟨Or.inr rfl, fun hatt => absurd ?_ hm⟩
          rcases hatt with ⟨_, h1⟩ | ⟨h2, _⟩
          · exact h1
          · rw [htr] at h2
            exact absurd h2 (by simp)
  · have hf : envTruthy env_api_key = false := by
      cases henv : envTruthy env_api_key
      · rfl
      · exact absurd henv htr
    rw [sidebarConfigure_not_truthy mkModel env_api_key api_key_input s hf]
    have hcore := interactive_fail_conclusion mkModel api_key_input s hfail
    refine ⟨hcore.1, fun hatt => hcore.2 ?_⟩
    rcases hatt with ⟨h1, _⟩ | ⟨_, h2⟩
    · rw [hf] at h1
      exact absurd h1 (by simp)
    · exact h2

/-- Witness for the amended C2 at a concrete failing credential over a
session that already holds a handle. -/
theorem c2_amended_config_failure_witness :
    ((sidebarConfigure (fun _ => Except.error "invalid key") none "badkey"
        { messages := [], api_key := "k0", model := some "oldHandle" }).1.model = none ∨
      (sidebarConfigure (fun _ => Except.error "invalid key") none "badkey"
        { messages := [], api_key := "k0", model := some "oldHandle" }).1.model =
        ({ messages := [], api_key := "k0",
           model := some "oldHandle" } : SessionState).model) ∧
    (configAttempted none "badkey"
        { messages := [], api_key := "k0", model := some "oldHandle" } →
      ∃ e, StatusMsg.errorMsg e ∈
        (sidebarConfigure (fun _ => Except.error "invalid key") none "badkey"
          { messages := [], api_key := "k0", model := some "oldHandle" }).2) :=
  c2_amended_config_failure (fun _ => Except.error "invalid key") none "badkey"
    { messages := [], api_key := "k0", model := some "oldHandle" }
    (fun _ => ⟨"invalid key", rfl⟩)

/-- C8 (confirmed): when both an environment credential and an interactive
credential are present, the sidebar uses the environment credential
exclusively — the stored handle is built from it and the result does not
depend on the interactive input at all; when both are absent, the session
state is left unchanged, and an unconfigured session keeps the chat
interface disabled. -/
theorem c8_credential_precedence (mkModel : String → Except String String)
    (k input input2 : String) (s s2 : SessionState) (h : String)
    (hk : k ≠ "") (hmodel : s.model = none) (hmk : mkModel k = Except.ok h) :
    (sidebarConfigure mkModel (some k) input s).1.model = some h ∧
    (sidebarConfigure mkModel (some k) input s).1.api_key = k ∧
    sidebarConfigure mkModel (some k) input s =
      sidebarConfigure mkModel (some k) input2 s ∧
    (sidebarConfigure mkModel none "" s2).1 = s2 ∧
    (s2.api_key = "" → chatEnabled s2 = false) := by
  have hside : ∀ inp : String, sidebarConfigure mkModel (some k) inp s =
      ({ s with api_key := k, model := some h },
        [StatusMsg.successMsg "✅ API Key loaded from environment variable"]) := by
    intro inp
    simp [sidebarConfigure, configure_gemini, hk, hmodel, hmk]
  refine ⟨by rw [hside input], by rw [hside input], ?_, rfl, ?_⟩
  · rw [hside input, hside input2]
  · intro ha
    unfold chatEnabled
    rw [if_pos ha]

/-- Witness for C8 with distinguishable mock handles per credential: the
stored handle comes from the environment credential `"ENVKEY"`, not from
the interactive input `"INTKEY"`. -/
theorem c8_credential_precedence_witness :
    (sidebarConfigure (fun c => Except.ok ("handle-" ++ c)) (some "ENVKEY") "INTKEY"
        { messages := [], api_key := "", model := none }).1.model = some "handle-ENVKEY" ∧
    (sidebarConfigure (fun c => Except.ok ("handle-" ++ c)) (some "ENVKEY") "INTKEY"
        { messages := [], api_key := "", model := none }).1.api_key = "ENVKEY" ∧
    sidebarConfigure (fun c => Except.ok ("handle-" ++ c)) (some "ENVKEY") "INTKEY"
        { messages := [], api_key := "", model := none } =
      sidebarConfigure (fun c => Except.ok ("handle-" ++ c)) (some "ENVKEY") "OTHER"
        { messages := [], api_key := "", model := none } ∧
    (sidebarConfigure (fun c => Except.ok ("handle-" ++ c)) none ""
        { messages := [], api_key := "", model := none }).1 =
      { messages := [], api_key := "", model := none } ∧
    (({ messages := [], api_key := "", model := none } : SessionState).api_key = "" →
      chatEnabled { messages := [], api_key := "", model := none } = false) :=
  c8_credential_precedence (fun c => Except.ok ("handle-" ++ c)) "ENVKEY" "INTKEY"
    "OTHER" { messages := [], api_key := "", model := none }
    { messages := [], api_key := "", model := none } "handle-ENVKEY"
    (by decide) rfl rfl
